import Mathlib

/-!
Verification of the Census repository's data-access and tabular
presentation layer (src/frontend/census_app.py and
src/frontend/census_crud_ui.py) against its natural-language
specification.

The Python code is shallowly embedded: each relevant function is
translated into an executable Lean definition operating on explicit
state values.  Scalar cell values (string, integer, date, null) are the
inductive type `Value`; a row is an ordered association list from
column name to `Value`, mirroring the Python dicts whose keys are
unique; Python text parsing (`int(...)`, `datetime.strptime(...,
"%Y-%m-%d")`, `str.lower()`, the `in` substring test) is modelled
character by character on `List Char`.
-/

/-! ## Python string primitives -/

/-- Whether `needle` is a prefix of `hay`, on character lists. -/
def startsChars : List Char → List Char → Bool
  | [], _ => true
  | _ :: _, [] => false
  | a :: as, b :: bs => a == b && startsChars as bs

/-- Whether `needle` occurs contiguously inside `hay`: the Python
`needle in hay` substring test. -/
def hasSub (needle : List Char) : List Char → Bool
  | [] => startsChars needle []
  | b :: bs => startsChars needle (b :: bs) || hasSub needle bs

/-- Python `str.lower()`, modelled as per-character lowering (faithful on
the ASCII data the application handles). -/
def pyLower (s : String) : String :=
  String.mk (s.data.map Char.toLower)

/-! ## Dates and scalar values -/

/-- A `datetime.date` value: the triple Python's date type stores. -/
structure PyDate where
  year : Nat
  month : Nat
  day : Nat
deriving DecidableEq, Repr

/-- The decimal digit character for `k < 10` (`'0'` .. `'9'`). -/
def digitChar (k : Nat) : Char := Char.ofNat (48 + k)

/-- Numeric value of a digit character. -/
def dv (c : Char) : Nat := c.toNat - 48

/-- Two-digit zero-padded rendering (`"%02d"`) of `n ≤ 99`. -/
def pad2 (n : Nat) : List Char := [digitChar (n / 10), digitChar (n % 10)]

/-- Four-digit zero-padded rendering (`"%04d"`) of `n ≤ 9999`. -/
def pad4 (n : Nat) : List Char :=
  [digitChar (n / 1000), digitChar (n / 100 % 10), digitChar (n / 10 % 10), digitChar (n % 10)]

/-- Characters of `str(date)` / `date.strftime("%Y-%m-%d")`:
zero-padded ISO `YYYY-MM-DD`. -/
def dateChars (d : PyDate) : List Char :=
  pad4 d.year ++ '-' :: (pad2 d.month ++ '-' :: pad2 d.day)

/-- The `YYYY-MM-DD` string for a date. -/
def isoDateStr (d : PyDate) : String := String.mk (dateChars d)

/-- A scalar cell value exchanged with the backend: string, integer,
date, or null (Python `None`). -/
inductive Value
  | null
  | str (s : String)
  | int (n : Int)
  | date (d : PyDate)
deriving DecidableEq, Repr

/-- Python `str(v)` of a scalar value: `str(None) = "None"`, integers in
decimal with a leading minus for negatives, dates in ISO form. -/
def pyStr : Value → String
  | .null => "None"
  | .str s => s
  | .int n => toString n
  | .date d => isoDateStr d

/-- How the `csv` module renders a scalar field: `None` becomes the
empty field, every other value is rendered with `str`. -/
def csvStr : Value → String
  | .null => ""
  | v => pyStr v

/-- A row: an ordered mapping from column name to scalar value
(a Python dict with unique keys, in insertion order). -/
abbrev Row : Type := List (String × Value)

/-- Python `str(row.get(col, ''))`: the string form of the cell, with
the empty string substituted when the key is absent. -/
def rowGetStr (row : Row) (c : String) : String :=
  match List.lookup c row with
  | some v => pyStr v
  | none => ""

/-- The CSV field written for column `c` of `row`: the code builds
`row.get(col, '')` and `csv.DictWriter` renders it (`None` as empty). -/
def csvField (row : Row) (c : String) : String :=
  match List.lookup c row with
  | some v => csvStr v
  | none => ""

/-- Python `data.get(key)` with default `None`, as used when building
positional stored-procedure parameter lists. -/
def dictGet (data : Row) (k : String) : Value :=
  (List.lookup k data).getD .null

/-! ## Python `int(text)` -/

/-- Trailing and leading whitespace removal, as `int()` performs before
parsing. -/
def dropWsEnds (l : List Char) : List Char :=
  ((l.dropWhile Char.isWhitespace).reverse.dropWhile Char.isWhitespace).reverse

/-- Digits possibly separated by single underscores, after the first
digit (Python 3 integer literal grouping, e.g. `int("1_0") = 10`). -/
def digitsTail : List Char → Bool
  | [] => true
  | '_' :: rest =>
    match rest with
    | [] => false
    | c :: rest2 => c.isDigit && digitsTail rest2
  | c :: rest => c.isDigit && digitsTail rest

/-- Whether a nonempty character list is a valid unsigned integer token
for Python `int()`. -/
def digitsTok : List Char → Bool
  | [] => false
  | c :: rest => c.isDigit && digitsTail rest

/-- Numeric value of a digit/underscore token. -/
def digitsValAux (acc : Nat) : List Char → Nat
  | [] => acc
  | '_' :: rest => digitsValAux acc rest
  | c :: rest => digitsValAux (acc * 10 + dv c) rest

/-- Numeric value of a digit/underscore token, most significant first. -/
def digitsVal (l : List Char) : Nat := digitsValAux 0 l

/-- Python `int(s)` on a string, as `Option`: strips surrounding
whitespace, accepts an optional sign and a digit token, and yields
`none` exactly where `int()` raises `ValueError`. -/
def parseIntPy (s : String) : Option Int :=
  match dropWsEnds s.data with
  | '-' :: rest => if digitsTok rest then some (-(digitsVal rest : Int)) else none
  | '+' :: rest => if digitsTok rest then some ((digitsVal rest : Int)) else none
  | rest => if digitsTok rest then some ((digitsVal rest : Int)) else none

/-! ## Python `datetime.strptime(s, "%Y-%m-%d").date()`

CPython's `_strptime` compiles `%Y-%m-%d` to the anchored pattern
`\d\d\d\d - (1[0-2]|0[1-9]|[1-9]) - (3[01]|[12]\d|0[1-9]|[1-9])` and
requires the whole string to be consumed, then `datetime.date`
validates the calendar day.  Splitting on `'-'` and validating the
three tokens is equivalent, as each token is dash-free. -/

/-- Split a character list on `'-'` (groups between dashes, in order). -/
def splitDash : List Char → List (List Char)
  | [] => [[]]
  | c :: cs =>
    if c = '-' then [] :: splitDash cs
    else
      match splitDash cs with
      | [] => [[c]]
      | g :: gs => (c :: g) :: gs

/-- The `%Y` token: exactly four digits. -/
def yearTok : List Char → Option Nat
  | [a, b, c, d] =>
    if a.isDigit && b.isDigit && c.isDigit && d.isDigit then
      some (dv a * 1000 + dv b * 100 + dv c * 10 + dv d)
    else none
  | _ => none

/-- The `%m` / `%d` tokens: one or two digits (zero-padding optional);
range limits are checked by the caller together with date validity. -/
def mdTok : List Char → Option Nat
  | [a] => if a.isDigit then some (dv a) else none
  | [a, b] => if a.isDigit && b.isDigit then some (dv a * 10 + dv b) else none
  | _ => none

/-- Gregorian leap-year rule used by `datetime.date`. -/
def isLeap (y : Nat) : Bool := (y % 4 = 0 && y % 100 ≠ 0) || y % 400 = 0

/-- Days in a month, as `datetime.date` validates them. -/
def daysInMonth (y m : Nat) : Nat :=
  if m = 2 then (if isLeap y then 29 else 28)
  else if m = 4 ∨ m = 6 ∨ m = 9 ∨ m = 11 then 30
  else 31

/-- Python `datetime.strptime(s, "%Y-%m-%d").date()` as `Option`:
`none` exactly where strptime or the date constructor raises. -/
def parseDatePy (s : String) : Option PyDate :=
  match splitDash s.data with
  | [ys, ms, ds] =>
    match yearTok ys, mdTok ms, mdTok ds with
    | some y, some mo, some d =>
      if 1 ≤ y ∧ 1 ≤ mo ∧ mo ≤ 12 ∧ 1 ≤ d ∧ d ≤ daysInMonth y mo then
        some ⟨y, mo, d⟩
      else none
    | _, _, _ => none
  | _ => none

/-! ## The reusable tabular view (`DataTreeview` in census_app.py)

State: the declared column list, the loaded row set (`self.data`), the
live search text (`self.search_var`), and the current tree selection
(an index into the displayed items, or none).  `_refresh_tree` derives
the displayed subset; it is modelled as the pure function
`visibleRows`. -/

structure DataTreeview where
  columns : List String
  data : List Row
  search : String
  selection : Option Nat
deriving DecidableEq, Repr

/-- One row's filter test in `_refresh_tree`: some declared column's
lower-cased string form contains the (already lower-cased) search
term. -/
def rowMatches (columns : List String) (termLower : String) (row : Row) : Bool :=
  columns.any fun c => hasSub termLower.data (pyLower (rowGetStr row c)).data

/-- The displayed subset computed by `_refresh_tree`: all rows when the
lower-cased search text is empty, otherwise the rows passing
`rowMatches`, in load order.  The underlying `data` is read, never
written. -/
def visibleRows (tv : DataTreeview) : List Row :=
  let term := pyLower tv.search
  if term = "" then tv.data
  else tv.data.filter (rowMatches tv.columns term)

/-- Typing in the search box: stores the new text; the triggered
refresh rebuilds the tree, dropping any selection of a deleted item. -/
def setFilter (tv : DataTreeview) (t : String) : DataTreeview :=
  { tv with search := t, selection := none }

/-- `load_data`: replaces the row set wholesale and refreshes (which
clears the selection).  The search text is kept. -/
def loadData (tv : DataTreeview) (rows : List Row) : DataTreeview :=
  { tv with data := rows, selection := none }

/-- Repurposing a view for a new report shape: the caller assigns
`columns` and calls `_init_widgets`, which rebuilds the widgets with a
fresh empty search variable, sets `self.data = []`, and creates a new
tree with no items selected. -/
def reconfigureColumns (_tv : DataTreeview) (cols : List String) : DataTreeview :=
  { columns := cols, data := [], search := "", selection := none }

/-- A user click selecting displayed item `i`. -/
def selectItem (tv : DataTreeview) (i : Nat) : DataTreeview :=
  { tv with selection := some i }

/-- The string cells of the displayed items, one list per visible row,
in declared column order. -/
def visibleItems (tv : DataTreeview) : List (List String) :=
  (visibleRows tv).map fun row => tv.columns.map (rowGetStr row)

/-- `get_selected_row`: none without a selection, otherwise the
selected item's cells re-keyed by the declared columns. -/
def getSelectedRow (tv : DataTreeview) : Option (List (String × String)) :=
  match tv.selection with
  | none => none
  | some i =>
    ((visibleItems tv).get? i).map fun vals =>
      (List.range tv.columns.length).map fun j => (tv.columns.getD j "", vals.getD j "")

/-- Outcome of `_export_csv`: either the local validation warning shown
before any file dialog or write happens, or the records written to the
destination (header first; CSV quoting is file-format mechanics outside
the modelled core). -/
inductive ExportOutcome
  | validationError (msg : String)
  | written (lines : List (List String))
deriving DecidableEq, Repr

/-- `_export_csv`: an empty row set is rejected up front (no write);
otherwise the header is the declared column list and each loaded row
contributes one record with every declared column present, the empty
field substituted where the row lacks the key.  The export always reads
`self.data`, never the filtered view. -/
def exportCsv (tv : DataTreeview) : ExportOutcome :=
  if tv.data.isEmpty then .validationError "No data to export"
  else .written (tv.columns :: tv.data.map fun row => tv.columns.map (csvField row))

/-! ## Form coercion in census_crud_ui.py (`App._read_person_from_form`) -/

/-- The draft `Person` dataclass: every field optional (`None` until
set). -/
structure Person where
  person_id : Option Int := none
  ea_code : Option String := none
  structure_no : Option String := none
  household_no : Option String := none
  line_no : Option Int := none
  full_name : Option String := none
  sex : Option String := none
  date_of_birth : Option PyDate := none
  age_years : Option Int := none
  nationality : Option String := none
  ethnicity : Option String := none
  religion : Option String := none
  marital_status : Option String := none
deriving DecidableEq, Repr

/-- The text content of the crud-ui form's entry fields. -/
structure PersonForm where
  person_id : String := ""
  ea_code : String := ""
  structure_no : String := ""
  household_no : String := ""
  line_no : String := ""
  full_name : String := ""
  sex : String := ""
  dob : String := ""
  age_years : String := ""
  nationality : String := ""
  ethnicity : String := ""
  religion : String := ""
  marital_status : String := ""
deriving DecidableEq, Repr

/-- Python `s or None` on a text field: empty text becomes null. -/
def strOrNone (s : String) : Option String :=
  if s = "" then none else some s

/-- The nested `to_int` helper of `_read_person_from_form`: empty text
gives `None`; otherwise `int(s)`, with `ValueError` caught and turned
into `None` (no error is raised to the caller). -/
def to_int (s : String) : Option Int :=
  if s = "" then none else parseIntPy s

/-- The nested `to_date` helper of `_read_person_from_form`: empty text
gives `None`; otherwise `strptime(s, "%Y-%m-%d").date()`, with
`ValueError` caught and turned into `None` (no error is raised). -/
def to_date (s : String) : Option PyDate :=
  if s = "" then none else parseDatePy s

/-- `_read_person_from_form`: builds the draft `Person` from the form
text, coercing the numeric and date fields with `to_int` / `to_date`. -/
def readPersonFromForm (f : PersonForm) : Person :=
  { person_id := to_int f.person_id
    ea_code := strOrNone f.ea_code
    structure_no := strOrNone f.structure_no
    household_no := strOrNone f.household_no
    line_no := to_int f.line_no
    full_name := strOrNone f.full_name
    sex := strOrNone f.sex
    date_of_birth := to_date f.dob
    age_years := to_int f.age_years
    nationality := strOrNone f.nationality
    ethnicity := strOrNone f.ethnicity
    religion := strOrNone f.religion
    marital_status := strOrNone f.marital_status }

/-- An optional string as the scalar handed to the driver. -/
def optStrVal : Option String → Value
  | none => .null
  | some s => .str s

/-- An optional integer as the scalar handed to the driver. -/
def optIntVal : Option Int → Value
  | none => .null
  | some n => .int n

/-- An optional date as the scalar handed to the driver. -/
def optDateVal : Option PyDate → Value
  | none => .null
  | some d => .date d

/-- The positional IN-parameter list `sp_insert_person` passes to the
`INSERT_PERSON` procedure (census_crud_ui.py): twelve slots in fixed
order, `person_id` excluded (it is the OUT parameter). -/
def personToParams (p : Person) : List Value :=
  [optStrVal p.ea_code, optStrVal p.structure_no, optStrVal p.household_no,
   optIntVal p.line_no, optStrVal p.full_name, optStrVal p.sex,
   optDateVal p.date_of_birth, optIntVal p.age_years, optStrVal p.nationality,
   optStrVal p.ethnicity, optStrVal p.religion, optStrVal p.marital_status]

/-! ## Form coercion in census_app.py (`CensusApp.insert_person`) -/

/-- The client-side coercion failures of `insert_person`: the two
warning dialogs ("Invalid Date" / "Invalid Number") shown before any
backend call. -/
inductive CoerceError
  | invalidDate
  | invalidNumber (key : String)
deriving DecidableEq, Repr

/-- The default branch `data[key] = value or None`. -/
def strOrNull (v : String) : Value :=
  if v = "" then .null else .str v

/-- The `date_of_birth` branch of `insert_person`: nonempty text must
parse as `%Y-%m-%d`, else the method warns and aborts. -/
def coerceDateField (value : String) : Except CoerceError Value :=
  if value = "" then .ok (strOrNull value)
  else
    match parseDatePy value with
    | some d => .ok (.date d)
    | none => .error .invalidDate

/-- The `line_no` / `age_years` branch of `insert_person`: nonempty
text must parse as an integer, else the method warns and aborts. -/
def coerceIntField (key value : String) : Except CoerceError Value :=
  if value = "" then .ok (strOrNull value)
  else
    match parseIntPy value with
    | some n => .ok (.int n)
    | none => .error (.invalidNumber key)

/-- The text content of the census_app person form (the thirteen
`person_vars`, in dict insertion order). -/
structure PersonAppForm where
  person_id : String := ""
  ea_code : String := ""
  structure_no : String := ""
  household_no : String := ""
  line_no : String := ""
  full_name : String := ""
  sex : String := ""
  date_of_birth : String := ""
  age_years : String := ""
  nationality : String := ""
  ethnicity : String := ""
  religion : String := ""
  marital_status : String := ""
deriving DecidableEq, Repr

/-- The coercion loop of `insert_person`, unrolled over the thirteen
form fields in their dict order: `date_of_birth` takes the date branch,
`line_no` and `age_years` the integer branch, every other key
(including `person_id`) the default `value or None` branch.  The first
failure aborts the whole method before `sp_insert_person` is called, so
an error here leaves the backend untouched. -/
def readInsertData (f : PersonAppForm) : Except CoerceError Row := do
  let vLn ← coerceIntField "line_no" f.line_no
  let vDob ← coerceDateField f.date_of_birth
  let vAg ← coerceIntField "age_years" f.age_years
  pure [("person_id", strOrNull f.person_id), ("ea_code", strOrNull f.ea_code),
        ("structure_no", strOrNull f.structure_no), ("household_no", strOrNull f.household_no),
        ("line_no", vLn), ("full_name", strOrNull f.full_name),
        ("sex", strOrNull f.sex), ("date_of_birth", vDob),
        ("age_years", vAg), ("nationality", strOrNull f.nationality),
        ("ethnicity", strOrNull f.ethnicity), ("religion", strOrNull f.religion),
        ("marital_status", strOrNull f.marital_status)]

/-- The positional IN-parameter list the census_app `sp_insert_person`
builds from the coerced data dict via `data.get(...)`: the same twelve
fixed slots as the crud-ui variant. -/
def spInsertPersonParams (data : Row) : List Value :=
  [dictGet data "ea_code", dictGet data "structure_no", dictGet data "household_no",
   dictGet data "line_no", dictGet data "full_name", dictGet data "sex",
   dictGet data "date_of_birth", dictGet data "age_years", dictGet data "nationality",
   dictGet data "ethnicity", dictGet data "religion", dictGet data "marital_status"]

/-! ## Connection lifecycle (`connect_db` in both files)

Physical connections are numbered as they are opened; `openConns`
lists the connections that have been opened and not yet closed, and
`db` is the one the application variable `self.db` references. -/

structure GatewayState where
  openConns : List Nat
  nextId : Nat
  db : Option Nat
deriving DecidableEq, Repr

/-- `CensusApp.connect_db` (census_app.py), success path: if `self.db`
is set, `self.db.close()` releases it first; then a new `OracleDB` is
opened and stored. -/
def connect_db_app (s : GatewayState) : GatewayState :=
  let s1 :=
    match s.db with
    | some i => { s with openConns := s.openConns.erase i }
    | none => s
  { openConns := s1.openConns ++ [s1.nextId], nextId := s1.nextId + 1, db := some s1.nextId }

/-- `App.connect_db` (census_crud_ui.py), success path: a new
`OracleDB` is opened and assigned to `self.db` without any close of the
prior session. -/
def connect_db_crud (s : GatewayState) : GatewayState :=
  { openConns := s.openConns ++ [s.nextId], nextId := s.nextId + 1, db := some s.nextId }

/-! ## GET_PERSON_BY_ID (`sp_get_person_by_id`, identical in both files) -/

/-- What the drained ref cursor yields: the column names of its
description (as returned by the driver) and the fetched rows. -/
structure CursorResult where
  description : List String
  rows : List (List Value)
deriving DecidableEq, Repr

/-- `sp_get_person_by_id` after the procedure call: `fetchall` on the
OUT cursor; with no rows the method returns `None` (the description is
not even consulted); otherwise the first row becomes a dict keyed by
the lower-cased column names, one entry per description column. -/
def sp_get_person_by_id (res : CursorResult) : Option Row :=
  match res.rows with
  | [] => none
  | r :: _ =>
    let cols := res.description.map pyLower
    some ((List.range cols.length).map fun i => (cols.getD i "", r.getD i Value.null))

/-! ## Helper lemmas -/

/-- The empty needle is a substring of everything (Python `"" in s`). -/
theorem hasSub_nil_needle (l : List Char) : hasSub [] l = true := by
  cases l <;> rfl

/-- Lowering the empty string gives the empty string. -/
theorem pyLower_empty : pyLower "" = "" := rfl

/-- Lowering preserves emptiness: the lowered search term is empty
exactly when the typed text is. -/
theorem pyLower_eq_empty_iff (s : String) : pyLower s = "" ↔ s = "" := by
  obtain ⟨l⟩ := s
  rw [String.ext_iff, String.ext_iff]
  simp [pyLower]

/-- With at least one declared column, every row passes the filter test
for the empty search term. -/
theorem rowMatches_empty_term (cols : List String) (hcols : cols ≠ [])
    (row : Row) : rowMatches cols "" row = true := by
  cases cols with
  | nil => exact absurd rfl hcols
  | cons c cs =>
    have h := hasSub_nil_needle (pyLower (rowGetStr row c)).data
    simp only [rowMatches, List.any_cons, show ("" : String).data = [] from rfl, h,
      Bool.true_or]

/-- `visibleRows` after storing a nonempty search text is the filter of
the row set. -/
theorem visibleRows_setFilter_ne (tv : DataTreeview) (t : String) (ht : t ≠ "") :
    visibleRows (setFilter tv t) = tv.data.filter (rowMatches tv.columns (pyLower t)) := by
  have hterm : pyLower t ≠ "" := fun h => ht ((pyLower_eq_empty_iff t).mp h)
  simp only [visibleRows, setFilter]
  rw [if_neg hterm]

/-! ## Claim theorems -/

/-- C2: for every row set R loaded into the view model, setting the
filter text to the empty string makes the visible rows exactly R, in
the original load order (shown both for a freshly loaded set and for
the stored data of any state). -/
theorem c2_empty_filter_shows_all (tv : DataTreeview) (rows : List Row) :
    visibleRows (setFilter (loadData tv rows) "") = rows ∧
    visibleRows (setFilter tv "") = tv.data := by
  constructor <;> simp [visibleRows, setFilter, loadData, pyLower_empty]

/-- C1 (counterexample): with an empty declared column list — the state
the report tree is constructed in, `DataTreeview(report_frame, [])` —
and empty filter text, a loaded row is visible even though no declared
column's string form contains the filter text, so the claimed
biconditional fails as universally stated. -/
theorem c1_filter_counterexample :
    [("sex", Value.str "M")] ∈
      visibleRows (setFilter ⟨[], [[("sex", Value.str "M")]], "x", none⟩ "") ∧
    rowMatches ([] : List String) (pyLower "") [("sex", Value.str "M")] = false := by
  constructor
  · simp [visibleRows, setFilter, pyLower_empty]
  · rfl

/-- C1 (amended): after `set_filter(t)` a row is visible iff it belongs
to the loaded row set and either t is empty or the lower-cased string
form of at least one declared column's value contains the lower-cased
t; whenever at least one column is declared this is exactly the
original biconditional.  Recomputing the visible subset never mutates
the underlying row set. -/
theorem c1_filter_amended (tv : DataTreeview) (t : String) (row : Row) :
    (setFilter tv t).data = tv.data ∧
    (row ∈ visibleRows (setFilter tv t) ↔
      row ∈ tv.data ∧ (t = "" ∨ rowMatches tv.columns (pyLower t) row = true)) ∧
    (tv.columns ≠ [] →
      (row ∈ visibleRows (setFilter tv t) ↔
        row ∈ tv.data ∧ rowMatches tv.columns (pyLower t) row = true)) := by
  refine ⟨rfl, ?_, ?_⟩
  · by_cases ht : t = ""
    · subst ht
      simp [visibleRows, setFilter, pyLower_empty]
    · rw [visibleRows_setFilter_ne tv t ht]
      simp [List.mem_filter, ht]
  · intro hcols
    by_cases ht : t = ""
    · subst ht
      have hall := rowMatches_empty_term tv.columns hcols row
      simp [visibleRows, setFilter, pyLower_empty, hall]
    · rw [visibleRows_setFilter_ne tv t ht]
      simp [List.mem_filter]

/-- C1 (witness for the amended theorem): a concrete one-column state
where the biconditional is exercised with a nonempty filter. -/
theorem c1_filter_amended_witness :
    [("sex", Value.str "F")] ∈
        visibleRows (setFilter ⟨["sex"], [[("sex", Value.str "M")], [("sex", Value.str "F")]], "", none⟩ "f") ↔
      [("sex", Value.str "F")] ∈
          ([[("sex", Value.str "M")], [("sex", Value.str "F")]] : List Row) ∧
        rowMatches ["sex"] (pyLower "f") [("sex", Value.str "F")] = true :=
  (c1_filter_amended ⟨["sex"], [[("sex", Value.str "M")], [("sex", Value.str "F")]], "", none⟩
    "f" [("sex", Value.str "F")]).2.2 (by decide)

/-- C3: exporting while the loaded row set is empty is rejected by the
up-front guard — the outcome is the validation warning, carrying no
written records, and the method returns before any file dialog or
filesystem write happens. -/
theorem c3_export_empty_rejected (tv : DataTreeview) (h : tv.data = []) :
    exportCsv tv = ExportOutcome.validationError "No data to export" := by
  simp [exportCsv, h]

/-- C3 (witness): a concrete empty-data state. -/
theorem c3_export_empty_rejected_witness :
    exportCsv ⟨["a", "b"], [], "", none⟩ = ExportOutcome.validationError "No data to export" :=
  c3_export_empty_rejected ⟨["a", "b"], [], "", none⟩ rfl

/-- C4: for a nonempty row set, export writes the declared column names
as the header in their exact current order, then exactly one record per
loaded row in load order; every record has one field per declared
column, with the empty field substituted where the source row lacks the
key, so re-parsing the records reproduces the column order (the header)
and the row count. -/
theorem c4_export_shape (tv : DataTreeview) (h : tv.data ≠ []) :
    exportCsv tv =
      ExportOutcome.written
        (tv.columns :: tv.data.map fun row => tv.columns.map (csvField row)) ∧
    (tv.columns :: tv.data.map fun row => tv.columns.map (csvField row)).length =
      tv.data.length + 1 ∧
    (∀ line ∈ tv.data.map fun row => tv.columns.map (csvField row),
      line.length = tv.columns.length) ∧
    (∀ (row : Row) (c : String), List.lookup c row = none → csvField row c = "") := by
  have hne : tv.data.isEmpty = false := by
    cases hd : tv.data with
    | nil => exact absurd hd h
    | cons a l => rfl
  refine ⟨by simp [exportCsv, hne], by simp, ?_, ?_⟩
  · intro line hline
    obtain ⟨row, _, hrow⟩ := List.mem_map.mp hline
    simp [← hrow]
  · intro row c hc
    simp [csvField, hc]

/-- C4 (witness): a concrete two-row export, one row lacking a declared
key. -/
theorem c4_export_shape_witness :
    exportCsv ⟨["a", "b"], [[("a", Value.int 1), ("b", Value.str "x")], [("a", Value.int 2)]], "", none⟩ =
      ExportOutcome.written [["a", "b"], ["1", "x"], ["2", ""]] := by
  have h := (c4_export_shape
    ⟨["a", "b"], [[("a", Value.int 1), ("b", Value.str "x")], [("a", Value.int 2)]], "", none⟩
    (by decide)).1
  rw [h]
  decide

/-- C8: reconfiguring the columns of a loaded view clears the prior row
set — afterwards no previously loaded row is stored, visible, or
readable through the selection — and a subsequent load with the new
columns is what makes rows available again. -/
theorem c8_reconfigure_clears (tv : DataTreeview) (cols : List String) (rows : List Row) :
    (reconfigureColumns tv cols).data = [] ∧
    visibleRows (reconfigureColumns tv cols) = [] ∧
    getSelectedRow (reconfigureColumns tv cols) = none ∧
    (reconfigureColumns tv cols).columns = cols ∧
    (loadData (reconfigureColumns tv cols) rows).data = rows ∧
    visibleRows (loadData (reconfigureColumns tv cols) rows) = rows := by
  refine ⟨rfl, ?_, rfl, rfl, rfl, ?_⟩ <;>
    simp [visibleRows, reconfigureColumns, loadData, pyLower_empty]

/-- C9: export serializes the full underlying loaded row set regardless
of the active filter — for fixed loaded data and columns the exported
outcome is identical for any two filter texts, and identical to
exporting with no filter change at all. -/
theorem c9_export_ignores_filter (tv : DataTreeview) (t1 t2 : String) :
    exportCsv (setFilter tv t1) = exportCsv (setFilter tv t2) ∧
    exportCsv (setFilter tv t1) = exportCsv tv :=
  ⟨rfl, rfl⟩

/-! ## Digit and date-parsing lemmas -/

/-- Digit characters are recognised by `Char.isDigit`. -/
theorem digitChar_isDigit {k : Nat} (hk : k < 10) : (digitChar k).isDigit = true := by
  interval_cases k <;> decide

/-- Digit characters are not the dash separator. -/
theorem digitChar_ne_dash {k : Nat} (hk : k < 10) : digitChar k ≠ '-' := by
  interval_cases k <;> decide

/-- Digit characters decode back to their value. -/
theorem dv_digitChar {k : Nat} (hk : k < 10) : dv (digitChar k) = k := by
  interval_cases k <;> decide

/-- A dash-free character list splits into the single group it forms. -/
theorem splitDash_single (l : List Char) (h : ∀ c ∈ l, c ≠ '-') :
    splitDash l = [l] := by
  induction l with
  | nil => rfl
  | cons c cs ih =>
    have hc : c ≠ '-' := h c (List.mem_cons_self c cs)
    have ihh := ih fun x hx => h x (List.mem_cons_of_mem c hx)
    simp [splitDash, hc, ihh]

/-- Splitting a list that starts with a dash-free group followed by a
dash peels that group off. -/
theorem splitDash_append (a b : List Char) (h : ∀ c ∈ a, c ≠ '-') :
    splitDash (a ++ '-' :: b) = a :: splitDash b := by
  induction a with
  | nil => simp [splitDash]
  | cons c cs ih =>
    have hc : c ≠ '-' := h c (List.mem_cons_self c cs)
    have ihh := ih fun x hx => h x (List.mem_cons_of_mem c hx)
    simp [splitDash, hc, ihh]

/-- Two-digit renderings contain no dash. -/
theorem pad2_no_dash {n : Nat} (hn : n ≤ 99) : ∀ c ∈ pad2 n, c ≠ '-' := by
  have h1 : n / 10 < 10 := by omega
  have h2 : n % 10 < 10 := by omega
  intro c hc
  simp only [pad2, List.mem_cons, List.not_mem_nil, or_false] at hc
  rcases hc with h | h <;> subst h
  · exact digitChar_ne_dash h1
  · exact digitChar_ne_dash h2

/-- Four-digit renderings contain no dash. -/
theorem pad4_no_dash {n : Nat} (hn : n ≤ 9999) : ∀ c ∈ pad4 n, c ≠ '-' := by
  have h1 : n / 1000 < 10 := by omega
  have h2 : n / 100 % 10 < 10 := by omega
  have h3 : n / 10 % 10 < 10 := by omega
  have h4 : n % 10 < 10 := by omega
  intro c hc
  simp only [pad4, List.mem_cons, List.not_mem_nil, or_false] at hc
  rcases hc with h | h | h | h <;> subst h
  · exact digitChar_ne_dash h1
  · exact digitChar_ne_dash h2
  · exact digitChar_ne_dash h3
  · exact digitChar_ne_dash h4

/-- The year token of a zero-padded four-digit rendering parses back to
the year. -/
theorem yearTok_pad4 {n : Nat} (hn : n ≤ 9999) : yearTok (pad4 n) = some n := by
  have h1 : n / 1000 < 10 := by omega
  have h2 : n / 100 % 10 < 10 := by omega
  have h3 : n / 10 % 10 < 10 := by omega
  have h4 : n % 10 < 10 := by omega
  simp only [yearTok, pad4, digitChar_isDigit h1, digitChar_isDigit h2,
    digitChar_isDigit h3, digitChar_isDigit h4, Bool.and_self, if_true,
    dv_digitChar h1, dv_digitChar h2, dv_digitChar h3, dv_digitChar h4,
    Option.some.injEq]
  omega

/-- The month/day token of a zero-padded two-digit rendering parses
back to the value. -/
theorem mdTok_pad2 {n : Nat} (hn : n ≤ 99) : mdTok (pad2 n) = some n := by
  have h1 : n / 10 < 10 := by omega
  have h2 : n % 10 < 10 := by omega
  simp only [mdTok, pad2, digitChar_isDigit h1, digitChar_isDigit h2,
    Bool.and_self, if_true, dv_digitChar h1, dv_digitChar h2, Option.some.injEq]
  omega

/-- Month lengths never exceed 31. -/
theorem daysInMonth_le_31 (y m : Nat) : daysInMonth y m ≤ 31 := by
  unfold daysInMonth
  split
  · split <;> omega
  · split <;> omega

/-- Round trip: a valid date rendered as zero-padded `YYYY-MM-DD` text
is parsed back by the `%Y-%m-%d` parser. -/
theorem parseDatePy_iso {y m d : Nat} (hy1 : 1 ≤ y) (hy2 : y ≤ 9999)
    (hm1 : 1 ≤ m) (hm2 : m ≤ 12) (hd1 : 1 ≤ d) (hd2 : d ≤ daysInMonth y m) :
    parseDatePy (isoDateStr ⟨y, m, d⟩) = some ⟨y, m, d⟩ := by
  have hm99 : m ≤ 99 := by omega
  have hd31 : d ≤ 31 := le_trans hd2 (daysInMonth_le_31 y m)
  have hd99 : d ≤ 99 := by omega
  have hsplit : splitDash (dateChars ⟨y, m, d⟩) = [pad4 y, pad2 m, pad2 d] := by
    unfold dateChars
    rw [splitDash_append _ _ (pad4_no_dash hy2),
      splitDash_append _ _ (pad2_no_dash hm99),
      splitDash_single _ (pad2_no_dash hd99)]
  have hdata : (isoDateStr ⟨y, m, d⟩).data = dateChars ⟨y, m, d⟩ := rfl
  unfold parseDatePy
  rw [hdata, hsplit]
  simp only [yearTok_pad4 hy2, mdTok_pad2 hm99, mdTok_pad2 hd99]
  rw [if_pos ⟨hy1, hm1, hm2, hd1, hd2⟩]

/-- An ISO date string is nonempty. -/
theorem isoDateStr_ne_empty (dd : PyDate) : isoDateStr dd ≠ "" := by
  intro h
  have h2 := congrArg String.data h
  simp [isoDateStr, dateChars, pad4] at h2

/-- Indexed pair construction over `range` coincides with `zip` when
the index never runs past either list. -/
theorem rangeMap_pair_zip (da : String) (dbv : Value) :
    ∀ (as : List String) (bs : List Value), as.length ≤ bs.length →
      (List.range as.length).map (fun i => (as.getD i da, bs.getD i dbv)) = as.zip bs := by
  intro as
  induction as with
  | nil => intro bs _; simp
  | cons a as ih =>
    intro bs h
    cases bs with
    | nil => simp at h
    | cons b bs =>
      simp only [List.length_cons] at h
      rw [List.length_cons, List.range_succ_eq_map, List.map_cons, List.map_map]
      simp only [Function.comp_def, List.getD_cons_zero, List.getD_cons_succ,
        List.zip_cons_cons]
      rw [ih bs (Nat.le_of_succ_le_succ h)]

/-- C5 (counterexample): the claim says non-empty non-integer text in
each numeric field fails with FormatError, but on the input "abc" the
census_app insert flow passes `person_id` through as an untouched
string (no error), and the crud-ui form reader's `to_int` silently
coerces the text to null instead of failing. -/
theorem c5_numeric_counterexample :
    strOrNull "abc" = Value.str "abc" ∧
    readInsertData { person_id := "abc" : PersonAppForm } =
      Except.ok [("person_id", Value.str "abc"), ("ea_code", Value.null),
        ("structure_no", Value.null), ("household_no", Value.null),
        ("line_no", Value.null), ("full_name", Value.null),
        ("sex", Value.null), ("date_of_birth", Value.null),
        ("age_years", Value.null), ("nationality", Value.null),
        ("ethnicity", Value.null), ("religion", Value.null),
        ("marital_status", Value.null)] ∧
    to_int "abc" = none ∧
    (readPersonFromForm { line_no := "abc" : PersonForm }).line_no = none := by
  refine ⟨rfl, ?_, by decide, by decide⟩
  rfl

/-- C5 (amended): in the census_app insert flow, non-empty non-integer
text in `line_no` or `age_years` fails with the Invalid Number warning
(a FormatError) and aborts before any backend call, empty text coerces
to null, and integer text coerces to the integer; `person_id` text
takes the default string branch instead.  In the crud-ui form reader,
`to_int` coerces empty and non-integer text alike to null without
failing.  Coerced values occupy the fixed positional slots of the
INSERT_PERSON procedure: slot 3 is `line_no` and slot 7 is `age_years`
of the twelve IN parameters. -/
theorem c5_numeric_amended (v : String) (hv : v ≠ "") :
    (parseIntPy v = none →
      coerceIntField "line_no" v = Except.error (CoerceError.invalidNumber "line_no") ∧
      coerceIntField "age_years" v = Except.error (CoerceError.invalidNumber "age_years") ∧
      to_int v = none ∧
      (∀ f : PersonAppForm, f.line_no = v →
        readInsertData f = Except.error (CoerceError.invalidNumber "line_no"))) ∧
    (∀ n : Int, parseIntPy v = some n →
      coerceIntField "line_no" v = Except.ok (Value.int n) ∧
      coerceIntField "age_years" v = Except.ok (Value.int n) ∧
      to_int v = some n) ∧
    coerceIntField "line_no" "" = Except.ok Value.null ∧
    coerceIntField "age_years" "" = Except.ok Value.null ∧
    to_int "" = none ∧
    (∀ p : Person, (personToParams p).length = 12 ∧
      (personToParams p).get? 3 = some (optIntVal p.line_no) ∧
      (personToParams p).get? 7 = some (optIntVal p.age_years)) ∧
    (∀ f : PersonForm, (readPersonFromForm f).line_no = to_int f.line_no ∧
      (readPersonFromForm f).age_years = to_int f.age_years ∧
      (readPersonFromForm f).person_id = to_int f.person_id) ∧
    (∀ (data : Row), (spInsertPersonParams data).length = 12 ∧
      (spInsertPersonParams data).get? 3 = some (dictGet data "line_no") ∧
      (spInsertPersonParams data).get? 7 = some (dictGet data "age_years")) := by
  refine ⟨?_, ?_, rfl, rfl, rfl, fun p => ⟨rfl, rfl, rfl⟩, fun f => ⟨rfl, rfl, rfl⟩,
    fun data => ⟨rfl, rfl, rfl⟩⟩
  · intro hp
    have hln : coerceIntField "line_no" v =
        Except.error (CoerceError.invalidNumber "line_no") := by
      simp [coerceIntField, hv, hp]
    have hag : coerceIntField "age_years" v =
        Except.error (CoerceError.invalidNumber "age_years") := by
      simp [coerceIntField, hv, hp]
    refine ⟨hln, hag, by simp [to_int, hv, hp], ?_⟩
    intro f hf
    unfold readInsertData
    rw [hf, hln]
    rfl
  · intro n hn
    refine ⟨?_, ?_, by simp [to_int, hv, hn]⟩ <;> simp [coerceIntField, hv, hn]

/-- C5 (witness for the amended theorem): the non-integer text "abc"
in `line_no` aborts the census_app insert flow with the Invalid Number
FormatError before any backend call. -/
theorem c5_numeric_amended_witness :
    readInsertData { line_no := "abc" : PersonAppForm } =
      Except.error (CoerceError.invalidNumber "line_no") :=
  (((c5_numeric_amended "abc" (by decide)).1 (by decide)).2.2.2)
    { line_no := "abc" : PersonAppForm } rfl

/-- C6 (counterexample): the claim says any non-empty date text other
than exact `YYYY-MM-DD` fails with FormatError, but the unpadded text
"2020-1-2" is accepted by `%Y-%m-%d` parsing in both entry points, and
the unparseable text "2020-13-01" is silently coerced to null (no
error) by the crud-ui form reader's `to_date`. -/
theorem c6_date_counterexample :
    coerceDateField "2020-1-2" = Except.ok (Value.date ⟨2020, 1, 2⟩) ∧
    to_date "2020-1-2" = some ⟨2020, 1, 2⟩ ∧
    to_date "2020-13-01" = none ∧
    (readPersonFromForm { dob := "2020-13-01" : PersonForm }).date_of_birth = none := by
  refine ⟨rfl, by decide, by decide, by decide⟩

/-- C6 (amended): text accepted by Python's `%Y-%m-%d` pattern — a
four-digit year, a one- or two-digit month and day, forming a valid
calendar date — parses to the corresponding date, so in particular
exact zero-padded `YYYY-MM-DD` text does; other non-empty date text
fails with the Invalid Date warning (a FormatError) in the census_app
insert flow, caught before any backend call is issued, while the
crud-ui form reader instead coerces it silently to null. -/
theorem c6_date_amended (v : String) (y m d : Nat)
    (hy1 : 1 ≤ y) (hy2 : y ≤ 9999) (hm1 : 1 ≤ m) (hm2 : m ≤ 12)
    (hd1 : 1 ≤ d) (hd2 : d ≤ daysInMonth y m) :
    parseDatePy (isoDateStr ⟨y, m, d⟩) = some ⟨y, m, d⟩ ∧
    coerceDateField (isoDateStr ⟨y, m, d⟩) = Except.ok (Value.date ⟨y, m, d⟩) ∧
    (v ≠ "" → parseDatePy v = none →
      coerceDateField v = Except.error CoerceError.invalidDate ∧
      to_date v = none ∧
      (∀ f : PersonAppForm, f.date_of_birth = v → f.line_no = "" →
        readInsertData f = Except.error CoerceError.invalidDate)) ∧
    (∀ dd : PyDate, parseDatePy v = some dd →
      to_date v = some dd ∧ coerceDateField v = Except.ok (Value.date dd)) := by
  have hiso := parseDatePy_iso hy1 hy2 hm1 hm2 hd1 hd2
  refine ⟨hiso, ?_, ?_, ?_⟩
  · rw [coerceDateField, if_neg (isoDateStr_ne_empty ⟨y, m, d⟩), hiso]
  · intro hv hp
    have hcd : coerceDateField v = Except.error CoerceError.invalidDate := by
      simp [coerceDateField, hv, hp]
    refine ⟨hcd, by simp [to_date, hv, hp], ?_⟩
    intro f hdob hln
    unfold readInsertData
    rw [hln, hdob, hcd]
    rfl
  · intro dd hdd
    have hvne : v ≠ "" := by
      intro hveq
      rw [hveq] at hdd
      exact Option.noConfusion hdd
    exact ⟨by simp [to_date, hvne, hdd], by simp [coerceDateField, hvne, hdd]⟩

/-- C6 (witness for the amended theorem): the padded text "2021-02-28"
parses to its date, and the bad text "2020-02-30" (an invalid calendar
day) aborts the census_app insert flow with the Invalid Date
FormatError. -/
theorem c6_date_amended_witness :
    parseDatePy (isoDateStr ⟨2021, 2, 28⟩) = some ⟨2021, 2, 28⟩ ∧
    readInsertData { date_of_birth := "2020-02-30" : PersonAppForm } =
      Except.error CoerceError.invalidDate :=
  ⟨(c6_date_amended "x" 2021 2 28 (by decide) (by decide) (by decide) (by decide)
      (by decide) (by decide)).1,
    (((c6_date_amended "2020-02-30" 2021 2 28 (by decide) (by decide) (by decide)
          (by decide) (by decide) (by decide)).2.2.1 (by decide) (by decide)).2.2
      { date_of_birth := "2020-02-30" : PersonAppForm } rfl rfl)⟩

/-- C7: the claim requires connect to release the prior live session
before establishing a new one.  census_app's `connect_db` does close
the prior session first, but census_crud_ui's `connect_db` overwrites
`self.db` without any close: starting from one live connection, a
second connect leaves two connections open — a leaked session the
claim (and the spec's no-leak contract) forbids. -/
theorem c7_connect_leak :
    (connect_db_crud ⟨[0], 1, some 0⟩).openConns = [0, 1] ∧
    (connect_db_crud ⟨[0], 1, some 0⟩).db = some 1 ∧
    (connect_db_app ⟨[0], 1, some 0⟩).openConns = [1] ∧
    (connect_db_app ⟨[0], 1, some 0⟩).db = some 1 := by
  refine ⟨rfl, rfl, by decide, rfl⟩

/-- C10: `sp_get_person_by_id` returns none, raising nothing, whenever
the drained OUT cursor holds no rows (the description is not even
consulted); with rows it returns the first row as a mapping keyed by
the lower-cased column names, with the row's values in column order. -/
theorem c10_get_person_by_id (res : CursorResult) :
    (res.rows = [] → sp_get_person_by_id res = none) ∧
    (∀ (r : List Value) (rest : List (List Value)), res.rows = r :: rest →
      res.description.length ≤ r.length →
      sp_get_person_by_id res = some ((res.description.map pyLower).zip r) ∧
      ((res.description.map pyLower).zip r).map Prod.fst =
        res.description.map pyLower) := by
  constructor
  · intro h
    simp [sp_get_person_by_id, h]
  · intro r rest hr hlen
    have hlen2 : (res.description.map pyLower).length ≤ r.length := by
      rw [List.length_map]
      exact hlen
    constructor
    · simp only [sp_get_person_by_id, hr]
      rw [rangeMap_pair_zip "" Value.null (res.description.map pyLower) r hlen2]
    · exact List.map_fst_zip _ _ hlen2

/-- C10 (witness): a concrete cursor with one row, and one with none,
both run through the theorem. -/
theorem c10_get_person_by_id_witness :
    sp_get_person_by_id ⟨["PERSON_ID", "FULL_NAME"], [[Value.int 5, Value.str "Ama"]]⟩ =
      some ((["PERSON_ID", "FULL_NAME"].map pyLower).zip [Value.int 5, Value.str "Ama"]) ∧
    sp_get_person_by_id ⟨["PERSON_ID", "FULL_NAME"], []⟩ = none :=
  ⟨((c10_get_person_by_id ⟨["PERSON_ID", "FULL_NAME"], [[Value.int 5, Value.str "Ama"]]⟩).2
      [Value.int 5, Value.str "Ama"] [] rfl (by decide)).1,
    (c10_get_person_by_id ⟨["PERSON_ID", "FULL_NAME"], []⟩).1 rfl⟩
